import Mathlib

/-!
Shallow embedding of the TerraModifier-PC core simulation
(src/core/planet.py, src/core/resources.py, src/core/technology.py,
src/core/events.py, src/core/game_engine.py, src/config/constants.py).

Python floats are modelled as rationals, Python dicts as association
lists over `String`, and `random.random()` / `time.time()` draws as
explicit oracle parameters.  Operations that can raise in Python
(ZeroDivisionError, KeyError, AttributeError) return `Option`.
-/

namespace Terra

/-- Lookup in an association list; models Python dict indexing / `dict.get`. -/
def alookup {α : Type} : List (String × α) → String → Option α
  | [], _ => none
  | (k, v) :: rest, key => if k = key then some v else alookup rest key

/-- Update every entry carrying the given key; models Python dict item assignment
(dict keys are unique, so at most one entry is affected in states that model a dict). -/
def updF {α : Type} (l : List (String × α)) (key : String) (f : α → α) : List (String × α) :=
  l.map (fun e => if e.1 = key then (e.1, f e.2) else e)

/-- Deduplication by membership; models Python `list(set(xs))`, whose order is
unspecified — only membership in the result is ever used by the code. -/
def dedupStr : List String → List String
  | [] => []
  | x :: rest =>
    let r := dedupStr rest
    if r.contains x then r else x :: r

/-- Predicate transformer for `Option`: holds vacuously on `none`. -/
def optionAll {α : Type} (P : α → Prop) : Option α → Prop
  | none => True
  | some x => P x

/- Constants from src/config/constants.py. -/

def MIN_TEMPERATURE : ℚ := -273.15
def MAX_TEMPERATURE : ℚ := 1000.0
def MIN_PRESSURE : ℚ := 0.0
def MAX_PRESSURE : ℚ := 10.0
def MIN_OXYGEN : ℚ := 0.0
def MAX_OXYGEN : ℚ := 100.0
def TARGET_TEMPERATURE : ℚ := 15.0
def TARGET_PRESSURE : ℚ := 1.0
def TARGET_OXYGEN : ℚ := 21.0
def TOLERANCE_TEMPERATURE : ℚ := 20.0
def TOLERANCE_PRESSURE : ℚ := 0.3
def TOLERANCE_OXYGEN : ℚ := 5.0
def INITIAL_CREDITS : ℚ := 1000
def INITIAL_ENERGY : ℚ := 100
def INITIAL_SCIENCE : ℚ := 0

/- Event data model (src/core/events.py). -/

/-- The sparse `effects` mapping of an event template: each named effect key
is either present with a magnitude or absent. -/
structure EffectMap where
  credits_bonus : Option ℚ
  credits_cost : Option ℚ
  energy_bonus : Option ℚ
  energy_cost : Option ℚ
  science_bonus : Option ℚ
  building_damage_chance : Option ℚ
  temperature_modifier : Option ℚ
  pressure_modifier : Option ℚ
  oxygen_modifier : Option ℚ
deriving DecidableEq

/-- The sparse `requirements` mapping of an event template. -/
structure Requirements where
  min_buildings : Option ℚ
  planets : Option (List String)
  min_habitability : Option ℚ
  min_science : Option ℚ
  min_research_labs : Option ℚ
  min_mining_facilities : Option ℚ
  min_pressure : Option ℚ
deriving DecidableEq

/-- GameEvent template (class GameEvent). -/
structure GameEvent where
  id : String
  name : String
  type : String
  probability : ℚ
  duration : ℚ
  effects : EffectMap
  requirements : Requirements
deriving DecidableEq

/-- ActiveEvent (class ActiveEvent): a live instance of a template on a planet.
`start_time` records the `time.time()` value at creation. -/
structure ActiveEvent where
  event : GameEvent
  start_time : ℚ
  duration : ℚ
  effects_applied : Bool
deriving DecidableEq

/-- ActiveEvent.is_expired; `now` models `time.time()`. -/
def ActiveEvent.is_expired (e : ActiveEvent) (now : ℚ) : Bool :=
  if e.duration = 0 then e.effects_applied
  else decide (now - e.start_time ≥ e.duration)

/- Planet data model (src/core/planet.py). -/

/-- History ring buffers of a planet (bounded to 100 entries in `update`). -/
structure PlanetHistory where
  temperature : List ℚ
  pressure : List ℚ
  oxygen : List ℚ
  habitability : List ℚ
deriving DecidableEq

structure Planet where
  name : String
  description : String
  image_path : String
  temperature : ℚ
  pressure : ℚ
  oxygen : ℚ
  base_temperature : ℚ
  base_pressure : ℚ
  base_oxygen : ℚ
  temperature_modifier : ℚ
  pressure_modifier : ℚ
  oxygen_modifier : ℚ
  mass : ℚ
  distance_from_sun : ℚ
  day_length : ℚ
  buildings : List (String × ℤ)
  history : PlanetHistory
  active_events : List ActiveEvent
deriving DecidableEq

/-- Individual habitability score: the `max(0, 1 - diff/tolerance)` computation
inside Planet.calculate_habitability. -/
def habScore (target tolerance value : ℚ) : ℚ :=
  max 0 (1 - |value - target| / tolerance)

/-- Planet.calculate_habitability, as a function of the three atmospheric values. -/
def calcHab (t pr ox : ℚ) : ℚ :=
  min 100 (max 0 ((habScore TARGET_TEMPERATURE TOLERANCE_TEMPERATURE t * 0.4
      + habScore TARGET_PRESSURE TOLERANCE_PRESSURE pr * 0.3
      + habScore TARGET_OXYGEN TOLERANCE_OXYGEN ox * 0.3) * 100))

/-- Habitability as the specification text states it: per-axis
`score = max(0, 1 - |current - target| / tolerance)` with targets 15°C / 1 atm / 21%
and tolerances 20 / 0.3 / 5, combined as `0.4*temp + 0.3*pressure + 0.3*oxygen`,
scaled to 0-100 and clamped to [0,100]. -/
def calcHabSpec (t pr ox : ℚ) : ℚ :=
  let temp_score := max 0 (1 - |t - 15| / 20)
  let pressure_score := max 0 (1 - |pr - 1| / (3 / 10))
  let oxygen_score := max 0 (1 - |ox - 21| / 5)
  min 100 (max 0 ((0.4 * temp_score + 0.3 * pressure_score + 0.3 * oxygen_score) * 100))

def Planet.calculate_habitability (p : Planet) : ℚ :=
  calcHab p.temperature p.pressure p.oxygen

/-- Per-building atmospheric effect table inside Planet._update_modifiers. -/
structure AtmoEffect where
  temperature : ℚ
  pressure : ℚ
  oxygen : ℚ
deriving DecidableEq

def building_effects_atmo (bt : String) : Option AtmoEffect :=
  if bt = "heater" then some ⟨5.0, 0, 0⟩
  else if bt = "cooler" then some ⟨-5.0, 0, 0⟩
  else if bt = "atmosphere_processor" then some ⟨0, 0.1, 0⟩
  else if bt = "oxygen_generator" then some ⟨0, 0, 2.0⟩
  else if bt = "greenhouse" then some ⟨2.0, 0, 1.0⟩
  else if bt = "solar_panel" then some ⟨0, 0, 0⟩
  else if bt = "research_lab" then some ⟨0, 0, 0⟩
  else none

/-- Planet._update_modifiers: recompute the three modifiers from scratch from
the current building counts. -/
def Planet.update_modifiers (p : Planet) : Planet :=
  let m := p.buildings.foldl
    (fun (acc : ℚ × ℚ × ℚ) e =>
      match building_effects_atmo e.1 with
      | none => acc
      | some eff =>
        (acc.1 + eff.temperature * (e.2 : ℚ),
         acc.2.1 + eff.pressure * (e.2 : ℚ),
         acc.2.2 + eff.oxygen * (e.2 : ℚ)))
    ((0 : ℚ), (0 : ℚ), (0 : ℚ))
  {p with temperature_modifier := m.1, pressure_modifier := m.2.1, oxygen_modifier := m.2.2}

/-- Planet.add_building: create the entry at 0 when absent, add `count`, then
recompute modifiers. No floor and no removal of non-positive entries here. -/
def Planet.add_building (p : Planet) (building_type : String) (count : ℤ) : Planet :=
  let bs := if (alookup p.buildings building_type).isSome then p.buildings
            else p.buildings ++ [(building_type, 0)]
  let bs := updF bs building_type (fun c => c + count)
  Planet.update_modifiers {p with buildings := bs}

/-- Planet.remove_building: floor the count at 0, delete the entry when it
reaches 0, then recompute modifiers. -/
def Planet.remove_building (p : Planet) (building_type : String) (count : ℤ) : Planet :=
  let bs := match alookup p.buildings building_type with
    | none => p.buildings
    | some c =>
      let c2 := max 0 (c - count)
      if c2 = 0 then p.buildings.filter (fun e => decide (e.1 ≠ building_type))
      else updF p.buildings building_type (fun _ => c2)
  Planet.update_modifiers {p with buildings := bs}

/- ResourceManager (src/core/resources.py). -/

structure ResourceHistory where
  credits : List ℚ
  energy : List ℚ
  science : List ℚ
deriving DecidableEq

structure ResourceManager where
  credits : ℚ
  energy : ℚ
  science : ℚ
  credits_per_second : ℚ
  energy_per_second : ℚ
  science_per_second : ℚ
  energy_consumption : ℚ
  max_energy : ℚ
  max_science : ℚ
  history : ResourceHistory
deriving DecidableEq

/-- A cost / resource-bundle dict with the three resource keys, each possibly
absent (Python `cost.get(key, 0)` reads absent keys as 0). -/
structure Cost where
  credits : Option ℚ
  energy : Option ℚ
  science : Option ℚ
deriving DecidableEq

/-- ResourceManager.__init__. -/
def mkResourceManager : ResourceManager :=
  { credits := INITIAL_CREDITS, energy := INITIAL_ENERGY, science := INITIAL_SCIENCE,
    credits_per_second := 0, energy_per_second := 0, science_per_second := 0,
    energy_consumption := 0, max_energy := 1000, max_science := 10000,
    history := ⟨[INITIAL_CREDITS], [INITIAL_ENERGY], [INITIAL_SCIENCE]⟩ }

/-- ResourceManager.can_afford. -/
def ResourceManager.can_afford (rm : ResourceManager) (cost : Cost) : Bool :=
  decide (rm.credits ≥ cost.credits.getD 0)
    && decide (rm.energy ≥ cost.energy.getD 0)
    && decide (rm.science ≥ cost.science.getD 0)

/-- ResourceManager.spend_resources: returns the success flag and the new state. -/
def ResourceManager.spend_resources (rm : ResourceManager) (cost : Cost) :
    Bool × ResourceManager :=
  if rm.can_afford cost = false then (false, rm)
  else
    (true,
      {rm with credits := rm.credits - cost.credits.getD 0,
               energy := rm.energy - cost.energy.getD 0,
               science := rm.science - cost.science.getD 0})

/-- ResourceManager.add_resources: add each named amount, then re-clamp. -/
def ResourceManager.add_resources (rm : ResourceManager) (resources : Cost) :
    ResourceManager :=
  let rm :=
    {rm with credits := rm.credits + resources.credits.getD 0,
             energy := rm.energy + resources.energy.getD 0,
             science := rm.science + resources.science.getD 0}
  {rm with credits := max 0 rm.credits,
           energy := max 0 (min rm.max_energy rm.energy),
           science := max 0 (min rm.max_science rm.science)}

/-- Shape of ResourceManager.to_dict output (every key is always present). -/
structure ResourceDict where
  credits : ℚ
  energy : ℚ
  science : ℚ
  max_energy : ℚ
  max_science : ℚ
  history : ResourceHistory
deriving DecidableEq

def ResourceManager.to_dict (rm : ResourceManager) : ResourceDict :=
  ⟨rm.credits, rm.energy, rm.science, rm.max_energy, rm.max_science, rm.history⟩

/-- ResourceManager.from_dict: a fresh manager with the saved fields restored.
The Python `data.get(..., default)` defaults never fire on a dict produced by
`to_dict`, whose keys are all present. -/
def ResourceManager.from_dict (data : ResourceDict) : ResourceManager :=
  {mkResourceManager with
     credits := data.credits, energy := data.energy, science := data.science,
     max_energy := data.max_energy, max_science := data.max_science,
     history := data.history}

/- Event effect application (src/core/events.py, ActiveEvent.apply_effects). -/

/-- Whether the one-shot section of apply_effects would touch the resource
manager (any of the five resource effect keys present). -/
def EffectMap.has_resource_effects (eff : EffectMap) : Bool :=
  eff.credits_bonus.isSome || eff.credits_cost.isSome || eff.energy_bonus.isSome
    || eff.energy_cost.isSome || eff.science_bonus.isSome

/-- The probabilistic per-building damage loop: `dmg bt` models the draw
`random.random() < damage_chance` for building type `bt`. The loop iterates
over a snapshot of the key list and removes one building per success. -/
def damage_buildings (dmg : String → Bool) (p : Planet) : Planet :=
  (p.buildings.map Prod.fst).foldl
    (fun acc bt => if dmg bt then Planet.remove_building acc bt 1 else acc) p

/-- The continuous-effect section of apply_effects: while a timed event is
active, each configured atmospheric modifier times the fixed fraction 0.001 is
added into the planet's base values (note: not scaled by elapsed time). -/
def apply_continuous (e : ActiveEvent) (now : ℚ) (p : Planet) : Planet :=
  if 0 < e.duration ∧ e.is_expired now = false then
    {p with
       base_temperature := p.base_temperature + (e.event.effects.temperature_modifier.getD 0) * 0.001,
       base_pressure := p.base_pressure + (e.event.effects.pressure_modifier.getD 0) * 0.001,
       base_oxygen := p.base_oxygen + (e.event.effects.oxygen_modifier.getD 0) * 0.001}
  else p

/-- ActiveEvent.apply_effects with a genuine resource manager argument (the
call path through EventManager.update). Returns the mutated event (its
`effects_applied` flag), planet and resource manager. -/
def ActiveEvent.apply_effects (e : ActiveEvent) (p : Planet) (rm : ResourceManager)
    (dmg : String → Bool) (now : ℚ) : ActiveEvent × Planet × ResourceManager :=
  let s :=
    if e.effects_applied = false then
      let eff := e.event.effects
      let rm := match eff.credits_bonus with
        | some v => rm.add_resources ⟨some v, none, none⟩
        | none => rm
      let rm := match eff.credits_cost with
        | some v => (rm.spend_resources ⟨some v, none, none⟩).2
        | none => rm
      let rm := match eff.energy_bonus with
        | some v => rm.add_resources ⟨none, some v, none⟩
        | none => rm
      let rm := match eff.energy_cost with
        | some v => (rm.spend_resources ⟨none, some v, none⟩).2
        | none => rm
      let rm := match eff.science_bonus with
        | some v => rm.add_resources ⟨none, none, some v⟩
        | none => rm
      let p := match eff.building_damage_chance with
        | some _ => damage_buildings dmg p
        | none => p
      ({e with effects_applied := true}, p, rm)
    else (e, p, rm)
  (s.1, apply_continuous s.1 now s.2.1, s.2.2)

/-- ActiveEvent.apply_effects as reached from Planet._update_events, which
passes `delta_time` (a float) where the resource manager parameter is
expected; every resource branch would dereference that float and raise, so the
caller below guards those branches with an `Option`. This function covers the
remaining behaviour: damage, the flag, and the continuous effects. -/
def ActiveEvent.apply_effects_no_rm (e : ActiveEvent) (p : Planet)
    (dmg : String → Bool) (now : ℚ) : ActiveEvent × Planet :=
  let s :=
    if e.effects_applied = false then
      let p := match e.event.effects.building_damage_chance with
        | some _ => damage_buildings dmg p
        | none => p
      ({e with effects_applied := true}, p)
    else (e, p)
  (s.1, apply_continuous s.1 now s.2)

/-- The per-event loop of Planet._update_events. `none` models the
AttributeError raised when a not-yet-applied event with resource effects calls
a resource-manager method on the `delta_time` float. -/
def update_events_go (dmg : String → Bool) (now : ℚ) :
    List ActiveEvent → Planet → Option (List ActiveEvent × Planet)
  | [], p => some ([], p)
  | e :: rest, p =>
    if e.effects_applied = false ∧ e.event.effects.has_resource_effects = true then none
    else
      (update_events_go dmg now rest (e.apply_effects_no_rm p dmg now).2).map
        (fun r => ((e.apply_effects_no_rm p dmg now).1 :: r.1, r.2))

/-- Planet._update_events: prune expired events (`self.active_events` is
reassigned to the filtered list), then apply the effects of the remaining
ones. -/
def Planet.update_events (p : Planet) (dmg : String → Bool) (now : ℚ) : Option Planet :=
  (update_events_go dmg now (p.active_events.filter (fun e => !(e.is_expired now)))
      {p with active_events := p.active_events.filter (fun e => !(e.is_expired now))}).map
    (fun r => {r.2 with active_events := r.1})

/-- The first phase of Planet.update: recompute the three atmospheric values
as base + modifier, clamp them to their bounds, and append a sample to each
bounded (100-entry) history buffer. -/
def Planet.refresh_atmosphere (p : Planet) : Planet :=
  let t := max MIN_TEMPERATURE (min MAX_TEMPERATURE (p.base_temperature + p.temperature_modifier))
  let pr := max MIN_PRESSURE (min MAX_PRESSURE (p.base_pressure + p.pressure_modifier))
  let ox := max MIN_OXYGEN (min MAX_OXYGEN (p.base_oxygen + p.oxygen_modifier))
  let p2 := {p with temperature := t, pressure := pr, oxygen := ox}
  let h := if 100 ≤ p2.history.temperature.length then
      (⟨p2.history.temperature.tail, p2.history.pressure.tail,
        p2.history.oxygen.tail, p2.history.habitability.tail⟩ : PlanetHistory)
    else p2.history
  let h : PlanetHistory :=
    ⟨h.temperature ++ [t], h.pressure ++ [pr], h.oxygen ++ [ox],
     h.habitability ++ [Planet.calculate_habitability p2]⟩
  {p2 with history := h}

/-- Planet.update: recompute and clamp the three atmospheric values, append to
the bounded history, then update the active events. `delta_time` is forwarded
to _update_events where it is only (mis)used as the resource-manager argument
of apply_effects, so it influences nothing below. -/
def Planet.update (p : Planet) (delta_time now : ℚ) (dmg : String → Bool) : Option Planet :=
  let _ := delta_time
  p.refresh_atmosphere.update_events dmg now

/- Planet construction and snapshots. -/

/-- Planet template data (one entry of data/planets.json). -/
structure PlanetData where
  description : Option String
  image : Option String
  initial_temperature : Option ℚ
  initial_pressure : Option ℚ
  initial_oxygen : Option ℚ
  mass : Option ℚ
  distance : Option ℚ
  day_length : Option ℚ
deriving DecidableEq

/-- Planet.__init__. -/
def Planet.create (name : String) (planet_data : PlanetData) : Planet :=
  let t := planet_data.initial_temperature.getD 0
  let pr := planet_data.initial_pressure.getD 0
  let ox := planet_data.initial_oxygen.getD 0
  { name := name,
    description := planet_data.description.getD "",
    image_path := planet_data.image.getD "",
    temperature := t, pressure := pr, oxygen := ox,
    base_temperature := t, base_pressure := pr, base_oxygen := ox,
    temperature_modifier := 0, pressure_modifier := 0, oxygen_modifier := 0,
    mass := planet_data.mass.getD 1,
    distance_from_sun := planet_data.distance.getD 1,
    day_length := planet_data.day_length.getD 24,
    buildings := [],
    history := ⟨[t], [pr], [ox], [calcHab t pr ox]⟩,
    active_events := [] }

/-- Shape of Planet.to_dict output (every key is always present). -/
structure PlanetDict where
  name : String
  temperature : ℚ
  pressure : ℚ
  oxygen : ℚ
  base_temperature : ℚ
  base_pressure : ℚ
  base_oxygen : ℚ
  buildings : List (String × ℤ)
  history : PlanetHistory
deriving DecidableEq

def Planet.to_dict (p : Planet) : PlanetDict :=
  ⟨p.name, p.temperature, p.pressure, p.oxygen,
   p.base_temperature, p.base_pressure, p.base_oxygen, p.buildings, p.history⟩

/-- Planet.from_dict: rebuild from the template, restore temperature, pressure,
oxygen, buildings and history from the snapshot (the saved base_* values and
active events are not restored), then recompute modifiers. The `data.get`
defaults never fire on a dict produced by `to_dict`. -/
def Planet.from_dict (data : PlanetDict) (planet_data : PlanetData) : Planet :=
  let planet := Planet.create data.name planet_data
  let planet :=
    {planet with temperature := data.temperature, pressure := data.pressure,
                 oxygen := data.oxygen, buildings := data.buildings,
                 history := data.history}
  planet.update_modifiers

/- TechnologyTree (src/core/technology.py). -/

/-- A technology, mixing the immutable template data with its live state. -/
structure Technology where
  id : String
  cost : Cost
  prerequisites : List String
  unlocks : List String
  is_researched : Bool
  is_available : Bool
  research_progress : ℚ
deriving DecidableEq

/-- Technology template data (one entry of data/technologies.json). -/
structure TechData where
  cost : Cost
  prerequisites : List String
  unlocks : List String
deriving DecidableEq

/-- Technology.__init__. -/
def mkTechnology (tech_id : String) (d : TechData) : Technology :=
  { id := tech_id, cost := d.cost, prerequisites := d.prerequisites,
    unlocks := d.unlocks, is_researched := false,
    is_available := d.prerequisites.isEmpty, research_progress := 0 }

structure TechnologyTree where
  technologies : List (String × Technology)
  researched_technologies : List String
  current_research : Option String
  research_progress : ℚ
deriving DecidableEq

/-- TechnologyTree._update_availability: a not-yet-researched technology is
available iff its prerequisites are a subset of the researched set. -/
def update_availability (researched : List String) (l : List (String × Technology)) :
    List (String × Technology) :=
  l.map (fun e =>
    if e.2.is_researched then e
    else (e.1, {e.2 with is_available := e.2.prerequisites.all (fun q => researched.contains q)}))

/-- TechnologyTree.__init__, with the loaded template mapping passed in
(load_technologies performs the file I/O externally). -/
def mkTechnologyTree (tmpl : List (String × TechData)) : TechnologyTree :=
  let techs := tmpl.map (fun e => (e.1, mkTechnology e.1 e.2))
  { technologies := update_availability [] techs,
    researched_technologies := [], current_research := none, research_progress := 0 }

/-- TechnologyTree.complete_research. -/
def TechnologyTree.complete_research (t : TechnologyTree) (tech_id : String) :
    TechnologyTree :=
  match alookup t.technologies tech_id with
  | none => t
  | some _ =>
    let t :=
      {t with technologies := updF t.technologies tech_id
                (fun th => {th with is_researched := true, research_progress := 100}),
              researched_technologies :=
                if t.researched_technologies.contains tech_id then t.researched_technologies
                else t.researched_technologies ++ [tech_id]}
    let t := if t.current_research = some tech_id then
        {t with current_research := none, research_progress := 0}
      else t
    {t with technologies := update_availability t.researched_technologies t.technologies}

/-- TechnologyTree.update_research. `none` models the exceptions the Python
code can raise: a KeyError when the current id is not a known technology, and
a ZeroDivisionError when the technology's science cost is present and equal to
0 (`cost.get('science', 100)` only defaults when the key is absent). -/
def TechnologyTree.update_research (t : TechnologyTree) (science_points delta_time : ℚ) :
    Option TechnologyTree :=
  match t.current_research with
  | none => some t
  | some tech_id =>
    match alookup t.technologies tech_id with
    | none => none
    | some tech =>
      let science_cost := tech.cost.science.getD 100
      if science_cost = 0 then none
      else
        let newProg := tech.research_progress + science_points / science_cost * 100 * delta_time
        let t :=
          {t with technologies := updF t.technologies tech_id
                    (fun th => {th with research_progress := newProg}),
                  research_progress := newProg}
        some (if 100 ≤ newProg then t.complete_research tech_id else t)

/-- TechnologyTree.get_unlocked_buildings: deduplicated union of `unlocks`
across researched technologies (`list(set(...))` in Python; only membership in
the result is ever used). -/
def TechnologyTree.get_unlocked_buildings (t : TechnologyTree) : List String :=
  dedupStr (((t.technologies.map Prod.snd).filter (fun th => th.is_researched)).map
    (fun th => th.unlocks)).flatten

def TechnologyTree.is_building_unlocked (t : TechnologyTree) (building_type : String) : Bool :=
  t.get_unlocked_buildings.contains building_type

/-- Shape of TechnologyTree.to_dict output. -/
structure TechTreeDict where
  researched_technologies : List String
  current_research : Option String
  research_progress : ℚ
  technology_progress : List (String × ℚ)
deriving DecidableEq

def TechnologyTree.to_dict (t : TechnologyTree) : TechTreeDict :=
  { researched_technologies := t.researched_technologies,
    current_research := t.current_research,
    research_progress := t.research_progress,
    technology_progress := t.technologies.map (fun e => (e.1, e.2.research_progress)) }

/-- The `for tech_id in tree.researched_technologies` restoration loop of
TechnologyTree.from_dict. -/
def restore_researched : List String → List (String × Technology) → List (String × Technology)
  | [], l => l
  | tech_id :: rest, l =>
    restore_researched rest
      (if (alookup l tech_id).isSome then
        updF l tech_id (fun th => {th with is_researched := true})
      else l)

/-- The `for tech_id, progress in tech_progress.items()` restoration loop of
TechnologyTree.from_dict. -/
def restore_progress : List (String × ℚ) → List (String × Technology) → List (String × Technology)
  | [], l => l
  | (tech_id, prog) :: rest, l =>
    restore_progress rest
      (if (alookup l tech_id).isSome then
        updF l tech_id (fun th => {th with research_progress := prog})
      else l)

/-- TechnologyTree.from_dict, with the loaded template mapping passed in (the
constructor it calls reloads the same template file). -/
def TechnologyTree.from_dict (tmpl : List (String × TechData)) (data : TechTreeDict) :
    TechnologyTree :=
  let tree := mkTechnologyTree tmpl
  let tree :=
    {tree with researched_technologies := data.researched_technologies,
               technologies := restore_researched data.researched_technologies tree.technologies}
  let tree :=
    {tree with current_research := data.current_research,
               research_progress := data.research_progress}
  let tree := {tree with technologies := restore_progress data.technology_progress tree.technologies}
  {tree with technologies := update_availability tree.researched_technologies tree.technologies}

/- EventManager trigger logic (src/core/events.py). -/

/-- ActiveEvent.__init__: `now` models the `time.time()` captured as start_time. -/
def mkActiveEvent (now : ℚ) (e : GameEvent) : ActiveEvent :=
  { event := e, start_time := now, duration := e.duration, effects_applied := false }

/-- EventManager._check_event_requirements: every requirement predicate present
in the mapping must pass. -/
def check_event_requirements (e : GameEvent) (p : Planet) (rm : ResourceManager) : Bool :=
  (match e.requirements.min_buildings with
    | none => true
    | some v => !decide (((p.buildings.map Prod.snd).sum : ℚ) < v))
  && (match e.requirements.planets with
    | none => true
    | some names => names.contains p.name)
  && (match e.requirements.min_habitability with
    | none => true
    | some v => !decide (p.calculate_habitability < v))
  && (match e.requirements.min_science with
    | none => true
    | some v => !decide (rm.science < v))
  && (match e.requirements.min_research_labs with
    | none => true
    | some v => !decide ((((alookup p.buildings "research_lab").getD 0 : ℤ) : ℚ) < v))
  && (match e.requirements.min_mining_facilities with
    | none => true
    | some v => !decide ((((alookup p.buildings "mining_facility").getD 0 : ℤ) : ℚ) < v))
  && (match e.requirements.min_pressure with
    | none => true
    | some v => !decide (p.pressure < v))

/-- EventManager._check_for_new_events: for each template, roll one probability
draw (`roll e.id` models `random.random()` for that template), check the
requirements, skip when an event with the same template id is already active,
otherwise trigger it (trigger_event appends an ActiveEvent). -/
def check_for_new_events (roll : String → ℚ) (now : ℚ) (templates : List GameEvent)
    (p : Planet) (rm : ResourceManager) : Planet :=
  match templates with
  | [] => p
  | e :: rest =>
    let p2 :=
      if roll e.id > e.probability then p
      else if check_event_requirements e p rm = false then p
      else if p.active_events.any (fun ae => ae.event.id = e.id) then p
      else {p with active_events := p.active_events ++ [mkActiveEvent now e]}
    check_for_new_events roll now rest p2 rm

/-- Iterated invocation of ActiveEvent.apply_effects on the same event across
ticks (the EventManager.update call path). -/
def apply_effects_iter (dmg : String → Bool) (now : ℚ) :
    ℕ → ActiveEvent × Planet × ResourceManager → ActiveEvent × Planet × ResourceManager
  | 0, s => s
  | n + 1, s => apply_effects_iter dmg now n (s.1.apply_effects s.2.1 s.2.2 dmg now)

/-- Iterating only the continuous-effect section of apply_effects: what the
per-tick application amounts to once the one-shot phase has run. -/
def apply_continuous_iter (e : ActiveEvent) (now : ℚ) : ℕ → Planet → Planet
  | 0, p => p
  | k + 1, p => apply_continuous_iter e now k (apply_continuous e now p)

/- GameEngine.build_structure (src/core/game_engine.py). -/

structure GameEngine where
  current_planet : Option Planet
  resource_manager : ResourceManager
  technology_tree : TechnologyTree
deriving DecidableEq

/-- The per-building cost table inside GameEngine.build_structure. -/
def building_costs (bt : String) : Option Cost :=
  if bt = "solar_panel" then some ⟨some 100, some 10, none⟩
  else if bt = "heater" then some ⟨some 150, some 20, none⟩
  else if bt = "cooler" then some ⟨some 150, some 20, none⟩
  else if bt = "atmosphere_processor" then some ⟨some 300, some 50, none⟩
  else if bt = "oxygen_generator" then some ⟨some 200, some 30, none⟩
  else if bt = "greenhouse" then some ⟨some 250, some 25, none⟩
  else if bt = "research_lab" then some ⟨some 400, some 40, none⟩
  else if bt = "mining_facility" then some ⟨some 350, some 35, none⟩
  else none

/-- GameEngine.build_structure: unlock check, cost scaling by `count`
(`{resource: cost * count ...}` scales exactly the keys present), spend, then
Planet.add_building. -/
def GameEngine.build_structure (g : GameEngine) (building_type : String) (count : ℤ) :
    Bool × GameEngine :=
  match g.current_planet with
  | none => (false, g)
  | some planet =>
    if g.technology_tree.is_building_unlocked building_type = false then (false, g)
    else match building_costs building_type with
      | none => (false, g)
      | some base_cost =>
        let total_cost : Cost :=
          ⟨base_cost.credits.map (fun c => c * (count : ℚ)),
           base_cost.energy.map (fun c => c * (count : ℚ)),
           base_cost.science.map (fun c => c * (count : ℚ))⟩
        let r := g.resource_manager.spend_resources total_cost
        if r.1 = false then (false, g)
        else (true, {g with resource_manager := r.2,
                            current_planet := some (planet.add_building building_type count)})

/- Derived quantities used to state the claims. -/

/-- Total continuous-effect increment contributed to a base atmospheric value
by one pass over an active-event list: each not-expired timed event adds its
configured modifier times the fixed fraction 0.001, once per update call. -/
def continuous_increment (now : ℚ) (sel : EffectMap → Option ℚ) (l : List ActiveEvent) : ℚ :=
  (l.map (fun e =>
    if 0 < e.duration ∧ e.is_expired now = false then (sel e.event.effects).getD 0 * 0.001
    else 0)).sum

/-- Atmospheric bounds invariant of the specification. -/
def atmo_in_bounds (p : Planet) : Prop :=
  MIN_TEMPERATURE ≤ p.temperature ∧ p.temperature ≤ MAX_TEMPERATURE
    ∧ MIN_PRESSURE ≤ p.pressure ∧ p.pressure ≤ MAX_PRESSURE
    ∧ MIN_OXYGEN ≤ p.oxygen ∧ p.oxygen ≤ MAX_OXYGEN

/- Concrete sample states used by witnesses and counterexamples. -/

/-- An empty requirements mapping. -/
def reqNone : Requirements := ⟨none, none, none, none, none, none, none⟩

/-- An empty effects mapping. -/
def effNone : EffectMap := ⟨none, none, none, none, none, none, none, none, none⟩

/-- A planet template with Earth-like initial values. -/
def pdEarth : PlanetData := ⟨none, none, some 15, some 1, some 21, none, none, none⟩

def pEarthlike : Planet := Planet.create "Terra" pdEarth

/-- A planet hotter than Earth by 25 degrees, otherwise Earth-like. -/
def pHot : Planet := Planet.create "Hot" ⟨none, none, some 40, some 1, some 21, none, none, none⟩

/-- A planet far outside every habitability tolerance. -/
def pDead : Planet := Planet.create "Venus" ⟨none, none, some 500, some 9, some 90, none, none, none⟩

/-- A timed event with a temperature modifier of 1 and no other effects. -/
def evContinuous : GameEvent :=
  { id := "dust_storm", name := "Dust Storm", type := "negative", probability := 1/10,
    duration := 10, effects := {effNone with temperature_modifier := some 1},
    requirements := reqNone }

/-- An instance of `evContinuous` whose one-shot phase already ran. -/
def aeContinuous : ActiveEvent :=
  { event := evContinuous, start_time := 0, duration := 10, effects_applied := true }

/-- A low-pressure planet (pressure 0.2) carrying one active continuous event. -/
def pC2 : Planet :=
  {Planet.create "Mars" ⟨none, none, some 0, some (1/5), some 0, none, none, none⟩ with
     active_events := [aeContinuous]}

/-- A technology whose cost mapping carries an explicit science cost of 0. -/
def techZeroCost : Technology :=
  { id := "t0", cost := ⟨none, none, some 0⟩, prerequisites := [], unlocks := [],
    is_researched := false, is_available := true, research_progress := 0 }

/-- A tree currently researching `techZeroCost`. -/
def treeZeroCost : TechnologyTree :=
  { technologies := [("t0", techZeroCost)], researched_technologies := [],
    current_research := some "t0", research_progress := 0 }

/-- A technology whose cost mapping has no science key at all. -/
def techNoScience : Technology :=
  { id := "t1", cost := ⟨some 50, none, none⟩, prerequisites := [], unlocks := [],
    is_researched := false, is_available := true, research_progress := 0 }

/-- A tree currently researching `techNoScience`. -/
def treeNoScience : TechnologyTree :=
  { technologies := [("t1", techNoScience)], researched_technologies := [],
    current_research := some "t1", research_progress := 0 }

/-- A researched technology unlocking the solar panel. -/
def techSolar : Technology :=
  { id := "solar_tech", cost := ⟨some 50, none, some 100⟩, prerequisites := [],
    unlocks := ["solar_panel"], is_researched := true, is_available := true,
    research_progress := 100 }

/-- A tree with `techSolar` researched. -/
def treeSolar : TechnologyTree :=
  { technologies := [("solar_tech", techSolar)], researched_technologies := ["solar_tech"],
    current_research := none, research_progress := 0 }

/-- A resource manager with credits 1000, energy 995 (capacity 1000), science 0. -/
def rmNearCap : ResourceManager :=
  {mkResourceManager with energy := 995, history := ⟨[1000], [995], [0]⟩}

/-- A game engine about to build a negative number of solar panels. -/
def engNeg : GameEngine :=
  { current_planet := some pEarthlike, resource_manager := rmNearCap,
    technology_tree := treeSolar }

/-- An affordable cost for `mkResourceManager`. -/
def costSmall : Cost := ⟨some 100, some 10, none⟩

/-- An unaffordable cost for `mkResourceManager`. -/
def costHuge : Cost := ⟨some 5000, none, none⟩

/-- An event template requiring pressure at least 0.5. -/
def evMinPressure : GameEvent :=
  { id := "aurora", name := "Aurora", type := "positive", probability := 1,
    duration := 0, effects := {effNone with credits_bonus := some 10},
    requirements := {reqNone with min_pressure := some (1/2)} }

/-- An always-triggering event template with no requirements. -/
def evFree : GameEvent :=
  { id := "meteor", name := "Meteor", type := "neutral", probability := 1,
    duration := 5, effects := effNone, requirements := reqNone }

/-- A roll oracle that always draws 0. -/
def rollZero : String → ℚ := fun _ => 0

/-- A damage oracle that never damages. -/
def dmgNone : String → Bool := fun _ => false

/-- A concrete template list for the C6 witness. -/
def tmplOne : List (String × TechData) :=
  [("alpha", ⟨⟨none, none, some 80⟩, [], ["greenhouse"]⟩)]

/-- A freshly triggered instantaneous event (duration 0) whose effects contain
exactly a credits_bonus of 50. -/
def mkCredits50Event (eid ename ety : String) (prob : ℚ) (req : Requirements) (s : ℚ) :
    ActiveEvent :=
  { event := {id := eid, name := ename, type := ety, probability := prob, duration := 0,
              effects := {effNone with credits_bonus := some 50}, requirements := req},
    start_time := s, duration := 0, effects_applied := false }

/-! Theorems. -/

/-- Claim C1: the claim states that a technology whose cost mapping has science
absent or equal to zero never causes a division-by-zero in
TechnologyTree.update_research, the science cost being treated as the default
100. The code only defaults when the key is absent: with an explicit science
cost of 0 the division raises ZeroDivisionError (modelled as `none`), while an
absent science key indeed uses the default and succeeds. -/
theorem c1_zero_science_cost_divides_by_zero :
    TechnologyTree.update_research treeZeroCost 1 1 = none ∧
    (TechnologyTree.update_research treeNoScience 1 1).isSome = true := by
  constructor
  · rfl
  · rfl

/-- Claim C9: Planet.from_dict sets base_temperature/base_pressure/base_oxygen
from the planet template's initial values — not from the base values stored in
the snapshot — and leaves active_events empty, for every snapshot produced by
Planet.to_dict. -/
theorem c9_from_dict_resets_base_values (p : Planet) (planet_data : PlanetData) :
    (Planet.from_dict p.to_dict planet_data).base_temperature
        = planet_data.initial_temperature.getD 0 ∧
    (Planet.from_dict p.to_dict planet_data).base_pressure
        = planet_data.initial_pressure.getD 0 ∧
    (Planet.from_dict p.to_dict planet_data).base_oxygen
        = planet_data.initial_oxygen.getD 0 ∧
    (Planet.from_dict p.to_dict planet_data).active_events = [] :=
  ⟨rfl, rfl, rfl, rfl⟩

/-- Claim C10: with the building type unlocked, build_structure with count -1
returns true: the negated cost passes can_afford, spend_resources subtracts the
negative amounts — increasing credits from 1000 to 1100 and energy from 995 to
1005, above the max_energy cap of 1000, with no re-clamping — and add_building
stores the count -1, which remains as an entry of the buildings mapping. -/
theorem c10_negative_count_build :
    (GameEngine.build_structure engNeg "solar_panel" (-1)).1 = true ∧
    (GameEngine.build_structure engNeg "solar_panel" (-1)).2.resource_manager.credits = 1100 ∧
    (GameEngine.build_structure engNeg "solar_panel" (-1)).2.resource_manager.energy = 1005 ∧
    (GameEngine.build_structure engNeg "solar_panel" (-1)).2.resource_manager.max_energy
      < (GameEngine.build_structure engNeg "solar_panel" (-1)).2.resource_manager.energy ∧
    ((GameEngine.build_structure engNeg "solar_panel" (-1)).2.current_planet.map Planet.buildings)
      = some [("solar_panel", -1)] ∧
    engNeg.resource_manager.credits = 1000 ∧ engNeg.resource_manager.energy = 995 := by
  refine ⟨?_, ?_, ?_, ?_, ?_, ?_, ?_⟩
  · with_unfolding_all rfl
  · with_unfolding_all rfl
  · with_unfolding_all rfl
  · exact of_decide_eq_true (by with_unfolding_all rfl)
  · with_unfolding_all rfl
  · with_unfolding_all rfl
  · with_unfolding_all rfl

/-- Claim C2, counterexample: on a planet with one remaining active event whose
temperature modifier is 1, an update with dt = 2 increases base_temperature by
exactly 0.001 — not by the dt-scaled 1 * 0.001 * 2 the claim predicts. -/
theorem c2_counterexample_not_dt_scaled :
    (Planet.update pC2 2 5 dmgNone).map Planet.base_temperature
      = some (pC2.base_temperature + 1 * 0.001) ∧
    ¬ (Planet.update pC2 2 5 dmgNone).map Planet.base_temperature
      = some (pC2.base_temperature + 1 * 0.001 * 2) := by
  constructor
  · with_unfolding_all rfl
  · exact of_decide_eq_true (by with_unfolding_all rfl)

/-- Claim C3: spend_resources is atomic. Affordability means every required
amount (absent entries required as 0) is at most the current stock; on an
affordable cost all named amounts are subtracted at once and the call returns
true; whenever it returns false, credits, energy and science are all unchanged. -/
theorem c3_spend_resources_atomic (rm : ResourceManager) (cost : Cost) :
    (rm.can_afford cost = true ↔
      (cost.credits.getD 0 ≤ rm.credits ∧ cost.energy.getD 0 ≤ rm.energy
        ∧ cost.science.getD 0 ≤ rm.science)) ∧
    (rm.can_afford cost = true →
      rm.spend_resources cost =
        (true, {rm with credits := rm.credits - cost.credits.getD 0,
                        energy := rm.energy - cost.energy.getD 0,
                        science := rm.science - cost.science.getD 0})) ∧
    ((rm.spend_resources cost).1 = false → (rm.spend_resources cost).2 = rm) := by
  refine ⟨?_, ?_, ?_⟩
  · simp [ResourceManager.can_afford, ge_iff_le, and_assoc]
  · intro h
    simp [ResourceManager.spend_resources, h]
  · intro h
    by_cases hca : rm.can_afford cost = false
    · simp [ResourceManager.spend_resources, hca]
    · exfalso
      simp only [Bool.not_eq_false] at hca
      simp [ResourceManager.spend_resources, hca] at h

/-- Witness for C3 at concrete inputs: an affordable and an unaffordable cost. -/
theorem c3_spend_resources_atomic_witness :
    ResourceManager.spend_resources mkResourceManager costSmall =
      (true, {mkResourceManager with
                credits := mkResourceManager.credits - costSmall.credits.getD 0,
                energy := mkResourceManager.energy - costSmall.energy.getD 0,
                science := mkResourceManager.science - costSmall.science.getD 0}) ∧
    (ResourceManager.spend_resources mkResourceManager costHuge).2 = mkResourceManager :=
  ⟨(c3_spend_resources_atomic mkResourceManager costSmall).2.1 (by decide),
   (c3_spend_resources_atomic mkResourceManager costHuge).2.2 (by decide)⟩

/-- Planet.remove_building never changes the derived atmospheric values
(it only touches buildings and modifiers). -/
theorem remove_building_atmo (p : Planet) (bt : String) (c : ℤ) :
    (p.remove_building bt c).temperature = p.temperature ∧
    (p.remove_building bt c).pressure = p.pressure ∧
    (p.remove_building bt c).oxygen = p.oxygen :=
  ⟨rfl, rfl, rfl⟩

/-- The building-damage loop never changes the derived atmospheric values. -/
theorem damage_foldl_atmo (dmg : String → Bool) (l : List String) (p : Planet) :
    ((l.foldl (fun acc bt => if dmg bt then Planet.remove_building acc bt 1 else acc) p).temperature
        = p.temperature ∧
     (l.foldl (fun acc bt => if dmg bt then Planet.remove_building acc bt 1 else acc) p).pressure
        = p.pressure ∧
     (l.foldl (fun acc bt => if dmg bt then Planet.remove_building acc bt 1 else acc) p).oxygen
        = p.oxygen) := by
  induction l generalizing p with
  | nil => exact ⟨rfl, rfl, rfl⟩
  | cons b rest ih =>
    simp only [List.foldl_cons]
    have h := ih (if dmg b then p.remove_building b 1 else p)
    by_cases hb : dmg b
    · simp only [hb, if_true] at h ⊢
      exact ⟨h.1.trans (remove_building_atmo p b 1).1,
             h.2.1.trans (remove_building_atmo p b 1).2.1,
             h.2.2.trans (remove_building_atmo p b 1).2.2⟩
    · simp only [hb, if_false] at h ⊢
      exact h

theorem damage_buildings_atmo (dmg : String → Bool) (p : Planet) :
    (damage_buildings dmg p).temperature = p.temperature ∧
    (damage_buildings dmg p).pressure = p.pressure ∧
    (damage_buildings dmg p).oxygen = p.oxygen :=
  damage_foldl_atmo dmg (p.buildings.map Prod.fst) p

/-- Continuous event effects only touch the base values, not the derived ones. -/
theorem apply_continuous_atmo (e : ActiveEvent) (now : ℚ) (p : Planet) :
    (apply_continuous e now p).temperature = p.temperature ∧
    (apply_continuous e now p).pressure = p.pressure ∧
    (apply_continuous e now p).oxygen = p.oxygen := by
  unfold apply_continuous
  split
  · exact ⟨rfl, rfl, rfl⟩
  · exact ⟨rfl, rfl, rfl⟩

theorem apply_effects_no_rm_atmo (e : ActiveEvent) (p : Planet) (dmg : String → Bool) (now : ℚ) :
    ((e.apply_effects_no_rm p dmg now).2.temperature = p.temperature ∧
     (e.apply_effects_no_rm p dmg now).2.pressure = p.pressure ∧
     (e.apply_effects_no_rm p dmg now).2.oxygen = p.oxygen) := by
  unfold ActiveEvent.apply_effects_no_rm
  by_cases ha : e.effects_applied = false
  · simp only [ha, if_true]
    cases hdc : e.event.effects.building_damage_chance with
    | none =>
      simp only
      exact apply_continuous_atmo _ now p
    | some v =>
      simp only
      have h1 := apply_continuous_atmo {e with effects_applied := true} now (damage_buildings dmg p)
      have h2 := damage_buildings_atmo dmg p
      exact ⟨h1.1.trans h2.1, h1.2.1.trans h2.2.1, h1.2.2.trans h2.2.2⟩
  · simp only [ha, if_false]
    exact apply_continuous_atmo e now p

theorem update_events_go_atmo (dmg : String → Bool) (now : ℚ) :
    ∀ (l : List ActiveEvent) (p : Planet) (r : List ActiveEvent × Planet),
      update_events_go dmg now l p = some r →
      (r.2.temperature = p.temperature ∧ r.2.pressure = p.pressure ∧ r.2.oxygen = p.oxygen) := by
  intro l
  induction l with
  | nil =>
    intro p r h
    simp only [update_events_go, Option.some.injEq] at h
    rw [← h]
    exact ⟨rfl, rfl, rfl⟩
  | cons e rest ih =>
    intro p r h
    unfold update_events_go at h
    split at h
    · exact absurd h (by simp)
    · obtain ⟨r0, hgo, hr⟩ := Option.map_eq_some'.mp h
      have hrec := ih _ r0 hgo
      have hs := apply_effects_no_rm_atmo e p dmg now
      rw [← hr]
      exact ⟨hrec.1.trans hs.1, hrec.2.1.trans hs.2.1, hrec.2.2.trans hs.2.2⟩

theorem update_events_atmo (dmg : String → Bool) (now : ℚ) (q r : Planet)
    (h : q.update_events dmg now = some r) :
    r.temperature = q.temperature ∧ r.pressure = q.pressure ∧ r.oxygen = q.oxygen := by
  unfold Planet.update_events at h
  obtain ⟨r0, hgo, hr⟩ := Option.map_eq_some'.mp h
  have hg := update_events_go_atmo dmg now _ _ _ hgo
  rw [← hr]
  exact ⟨hg.1, hg.2.1, hg.2.2⟩

/-- Claim C4: after every Planet.update, temperature lies in [-273.15, 1000],
pressure in [0, 10] and oxygen in [0, 100], whatever buildings were added or
removed and whatever event effects were applied before: update clamps the
derived values and the event phase never touches them again. -/
theorem c4_atmospheric_bounds (p : Planet) (dt now : ℚ) (dmg : String → Bool) :
    optionAll atmo_in_bounds (Planet.update p dt now dmg) := by
  cases h : Planet.update p dt now dmg with
  | none => exact trivial
  | some p2 =>
    show atmo_in_bounds p2
    have h' : (Planet.refresh_atmosphere p).update_events dmg now = some p2 := h
    obtain ⟨h1, h2, h3⟩ := update_events_atmo dmg now _ _ h'
    have e1 : (Planet.refresh_atmosphere p).temperature
        = max MIN_TEMPERATURE (min MAX_TEMPERATURE (p.base_temperature + p.temperature_modifier)) := rfl
    have e2 : (Planet.refresh_atmosphere p).pressure
        = max MIN_PRESSURE (min MAX_PRESSURE (p.base_pressure + p.pressure_modifier)) := rfl
    have e3 : (Planet.refresh_atmosphere p).oxygen
        = max MIN_OXYGEN (min MAX_OXYGEN (p.base_oxygen + p.oxygen_modifier)) := rfl
    refine ⟨?_, ?_, ?_, ?_, ?_, ?_⟩
    · rw [h1, e1]; exact le_max_left _ _
    · rw [h1, e1]
      exact max_le (by norm_num [MIN_TEMPERATURE, MAX_TEMPERATURE]) (min_le_left _ _)
    · rw [h2, e2]; exact le_max_left _ _
    · rw [h2, e2]
      exact max_le (by norm_num [MIN_PRESSURE, MAX_PRESSURE]) (min_le_left _ _)
    · rw [h3, e3]; exact le_max_left _ _
    · rw [h3, e3]
      exact max_le (by norm_num [MIN_OXYGEN, MAX_OXYGEN]) (min_le_left _ _)

/-- An event whose effects_applied flag is set skips the one-shot section
entirely: apply_effects leaves the event and the resource manager untouched
and only applies the continuous section to the planet. Holds for every effect
map and every duration. -/
theorem apply_effects_applied (e : ActiveEvent) (p : Planet) (rm : ResourceManager)
    (dmg : String → Bool) (now : ℚ) (h : e.effects_applied = true) :
    e.apply_effects p rm dmg now = (e, apply_continuous e now p, rm) := by
  unfold ActiveEvent.apply_effects
  simp [h]

/-- Every invocation of apply_effects leaves the effects_applied flag true:
it is set at the first application and never reset. -/
theorem apply_effects_flag (e : ActiveEvent) (p : Planet) (rm : ResourceManager)
    (dmg : String → Bool) (now : ℚ) :
    (e.apply_effects p rm dmg now).1.effects_applied = true := by
  by_cases h : e.effects_applied = true
  · rw [apply_effects_applied e p rm dmg now h]
    exact h
  · have h0 : e.effects_applied = false := by
      cases hb : e.effects_applied
      · rfl
      · exact absurd hb h
    unfold ActiveEvent.apply_effects
    rw [if_pos h0]

/-- Iterating apply_effects over a state whose event flag is set reduces to
iterating the continuous section only: the one-shot section never runs again. -/
theorem apply_effects_iter_applied (dmg : String → Bool) (now : ℚ) (k : ℕ)
    (s : ActiveEvent × Planet × ResourceManager) (h : s.1.effects_applied = true) :
    apply_effects_iter dmg now k s = (s.1, apply_continuous_iter s.1 now k s.2.1, s.2.2) := by
  induction k generalizing s with
  | zero => rfl
  | succ m ih =>
    show apply_effects_iter dmg now m (s.1.apply_effects s.2.1 s.2.2 dmg now) = _
    rw [apply_effects_applied s.1 s.2.1 s.2.2 dmg now h]
    exact ih (s.1, apply_continuous s.1 now s.2.1, s.2.2) h

/-- Claim C8: for every ActiveEvent, the one-shot effects (resource bonuses
and costs, probabilistic building damage) are never applied more than once,
gated by the effects_applied flag which becomes true at the first application
and is never reset: across any positive number of apply_effects invocations,
the event and the resource manager are exactly those left by the first
invocation and the planet evolves only by the continuous section afterwards;
in particular an instantaneous (duration 0) event whose effects contain a
credits_bonus of 50 adds exactly 50 credits in total. -/
theorem c8_one_shot_effects_apply_once (e : ActiveEvent) (p : Planet)
    (rm : ResourceManager) (dmg : String → Bool) (now : ℚ) (n : ℕ) (hn : 1 ≤ n) :
    (apply_effects_iter dmg now n (e, p, rm)).1.effects_applied = true ∧
    (apply_effects_iter dmg now n (e, p, rm)).1 = (e.apply_effects p rm dmg now).1 ∧
    (apply_effects_iter dmg now n (e, p, rm)).2.2 = (e.apply_effects p rm dmg now).2.2 ∧
    (apply_effects_iter dmg now n (e, p, rm)).2.1
      = apply_continuous_iter (e.apply_effects p rm dmg now).1 now (n - 1)
          (e.apply_effects p rm dmg now).2.1 ∧
    (e.effects_applied = false → e.duration = 0 →
      e.event.effects = ⟨some 50, none, none, none, none, none, none, none, none⟩ →
      0 ≤ rm.credits →
      (apply_effects_iter dmg now n (e, p, rm)).2.2.credits = rm.credits + 50) := by
  obtain ⟨m, rfl⟩ : ∃ m, n = m + 1 := ⟨n - 1, by omega⟩
  have hflag := apply_effects_flag e p rm dmg now
  have hiter : apply_effects_iter dmg now (m + 1) (e, p, rm)
      = ((e.apply_effects p rm dmg now).1,
         apply_continuous_iter (e.apply_effects p rm dmg now).1 now m
           (e.apply_effects p rm dmg now).2.1,
         (e.apply_effects p rm dmg now).2.2) := by
    show apply_effects_iter dmg now m (e.apply_effects p rm dmg now) = _
    exact apply_effects_iter_applied dmg now m _ hflag
  refine ⟨?_, ?_, ?_, ?_, ?_⟩
  · rw [hiter]
    exact hflag
  · rw [hiter]
  · rw [hiter]
  · rw [hiter, Nat.add_sub_cancel]
  · intro h0 hd heff hc
    have happly : e.apply_effects p rm dmg now
        = ({e with effects_applied := true}, p, rm.add_resources ⟨some 50, none, none⟩) := by
      unfold ActiveEvent.apply_effects apply_continuous
      simp [h0, heff, hd]
    rw [hiter, happly]
    show (rm.add_resources ⟨some 50, none, none⟩).credits = rm.credits + 50
    unfold ResourceManager.add_resources
    simp only [Option.getD_some]
    exact max_eq_right (by linarith)

/-- Witness for C8: three invocations on a fresh instantaneous credits-bonus-50
event leave the flag true and add exactly 50 credits. -/
theorem c8_one_shot_effects_apply_once_witness :
    (apply_effects_iter dmgNone 7 3
        (mkCredits50Event "storm" "Storm" "negative" (1/2) reqNone 0, pEarthlike,
         mkResourceManager)).1.effects_applied = true ∧
    (apply_effects_iter dmgNone 7 3
        (mkCredits50Event "storm" "Storm" "negative" (1/2) reqNone 0, pEarthlike,
         mkResourceManager)).2.2.credits = mkResourceManager.credits + 50 := by
  have h := c8_one_shot_effects_apply_once
    (mkCredits50Event "storm" "Storm" "negative" (1/2) reqNone 0) pEarthlike
    mkResourceManager dmgNone 7 3 (by norm_num)
  exact ⟨h.1, h.2.2.2.2 rfl rfl rfl (of_decide_eq_true (by with_unfolding_all rfl))⟩

/-- The requirement check never reads the active-event list. -/
theorem check_event_requirements_active_irrel (e : GameEvent) (p : Planet)
    (rm : ResourceManager) (l : List ActiveEvent) :
    check_event_requirements e {p with active_events := l} rm
      = check_event_requirements e p rm := rfl

/-- Claim C7: during the periodic event check a template is triggered only if
its probability roll succeeds, every requirement predicate present in its
requirements mapping passes against the current planet and ledger state, and
no ActiveEvent with the same template id is already on the planet; and on a
planet with pressure 0.2 an event requiring min_pressure 0.5 fails the
requirement check and adds no ActiveEvent. -/
theorem c7_event_trigger_conditions :
    (∀ (roll : String → ℚ) (now : ℚ) (templates : List GameEvent) (p : Planet)
        (rm : ResourceManager) (ae : ActiveEvent),
      ae ∈ (check_for_new_events roll now templates p rm).active_events →
      ae ∉ p.active_events →
      (ae.event ∈ templates ∧ ae = mkActiveEvent now ae.event
        ∧ roll ae.event.id ≤ ae.event.probability
        ∧ check_event_requirements ae.event p rm = true
        ∧ ∀ a ∈ p.active_events, a.event.id ≠ ae.event.id)) ∧
    (check_event_requirements evMinPressure pC2 mkResourceManager = false ∧
      check_for_new_events rollZero 0 [evMinPressure] pC2 mkResourceManager = pC2) := by
  constructor
  · intro roll now templates
    induction templates with
    | nil =>
      intro p rm ae hmem hnot
      exact absurd hmem hnot
    | cons e rest ih =>
      intro p rm ae hmem hnot
      rw [show check_for_new_events roll now (e :: rest) p rm
            = check_for_new_events roll now rest
                (if roll e.id > e.probability then p
                 else if check_event_requirements e p rm = false then p
                 else if p.active_events.any (fun a => a.event.id = e.id) then p
                 else {p with active_events := p.active_events ++ [mkActiveEvent now e]}) rm
          from rfl] at hmem
      by_cases hroll : roll e.id > e.probability
      · rw [if_pos hroll] at hmem
        have h := ih p rm ae hmem hnot
        exact ⟨List.mem_cons_of_mem e h.1, h.2⟩
      · rw [if_neg hroll] at hmem
        by_cases hreq : check_event_requirements e p rm = false
        · rw [if_pos hreq] at hmem
          have h := ih p rm ae hmem hnot
          exact ⟨List.mem_cons_of_mem e h.1, h.2⟩
        · rw [if_neg hreq] at hmem
          by_cases hdup : p.active_events.any (fun a => a.event.id = e.id)
          · rw [if_pos hdup] at hmem
            have h := ih p rm ae hmem hnot
            exact ⟨List.mem_cons_of_mem e h.1, h.2⟩
          · rw [if_neg hdup] at hmem
            by_cases hin2 : ae ∈ ({p with active_events := p.active_events ++ [mkActiveEvent now e]} : Planet).active_events
            · have hae : ae = mkActiveEvent now e := by
                have : ae ∈ p.active_events ++ [mkActiveEvent now e] := hin2
                rcases List.mem_append.mp this with hL | hR
                · exact absurd hL hnot
                · simpa using hR
              refine ⟨?_, ?_, ?_, ?_, ?_⟩
              · rw [hae]; exact List.mem_cons_self _ _
              · rw [hae]; rfl
              · rw [hae]
                exact le_of_not_lt hroll
              · rw [hae]
                exact (Bool.not_eq_false _).mp hreq
              · intro a ha
                rw [hae]
                intro hid
                exact hdup (List.any_eq_true.mpr ⟨a, ha, by simpa using hid⟩)
            · have h := ih _ rm ae hmem hin2
              refine ⟨List.mem_cons_of_mem e h.1, h.2.1, h.2.2.1, ?_, ?_⟩
              · rw [← check_event_requirements_active_irrel ae.event p rm
                    (p.active_events ++ [mkActiveEvent now e])]
                exact h.2.2.2.1
              · intro a ha
                exact h.2.2.2.2 a (List.mem_append_left _ ha)
  · constructor
    · with_unfolding_all rfl
    · with_unfolding_all rfl

/-- Witness for C7: a concrete template that does trigger satisfies all three
trigger conditions. -/
theorem c7_event_trigger_conditions_witness :
    (mkActiveEvent 0 evFree).event ∈ [evFree] ∧
    mkActiveEvent 0 evFree = mkActiveEvent 0 (mkActiveEvent 0 evFree).event ∧
    rollZero (mkActiveEvent 0 evFree).event.id ≤ (mkActiveEvent 0 evFree).event.probability ∧
    check_event_requirements (mkActiveEvent 0 evFree).event pEarthlike mkResourceManager = true := by
  have h := c7_event_trigger_conditions.1 rollZero 0 [evFree] pEarthlike mkResourceManager
    (mkActiveEvent 0 evFree)
    (of_decide_eq_true (by with_unfolding_all rfl))
    (of_decide_eq_true (by with_unfolding_all rfl))
  exact ⟨h.1, h.2.1, h.2.2.1, h.2.2.2.1⟩

/-- One pass of the event loop over events whose one-shot phase already ran:
no crash, the event list is returned unchanged, and each base value grows by
the summed continuous increments (modifier times 0.001 per event, once). -/
theorem update_events_go_all_applied (dmg : String → Bool) (now : ℚ) (l : List ActiveEvent)
    (p : Planet) (h : ∀ e ∈ l, e.effects_applied = true) :
    update_events_go dmg now l p = some (l,
      {p with base_temperature := p.base_temperature
                + continuous_increment now EffectMap.temperature_modifier l,
              base_pressure := p.base_pressure
                + continuous_increment now EffectMap.pressure_modifier l,
              base_oxygen := p.base_oxygen
                + continuous_increment now EffectMap.oxygen_modifier l}) := by
  induction l generalizing p with
  | nil =>
    simp [update_events_go, continuous_increment]
  | cons e rest ih =>
    have he : e.effects_applied = true := h e (List.mem_cons_self _ _)
    have hrest : ∀ a ∈ rest, a.effects_applied = true :=
      fun a ha => h a (List.mem_cons_of_mem _ ha)
    unfold update_events_go
    rw [if_neg (by simp [he])]
    have hs : e.apply_effects_no_rm p dmg now = (e, apply_continuous e now p) := by
      unfold ActiveEvent.apply_effects_no_rm
      simp [he]
    rw [hs]
    rw [ih _ hrest]
    simp only [Option.map_some', Option.some.injEq, Prod.mk.injEq, true_and]
    unfold apply_continuous continuous_increment
    simp only [List.map_cons, List.sum_cons]
    split
    · simp only [add_assoc]
    · simp only [zero_add]

/-- Planet._update_events on a planet whose events all already ran their
one-shot phase: prune the expired events and add the continuous increments. -/
theorem update_events_all_applied (dmg : String → Bool) (now : ℚ) (q : Planet)
    (h : ∀ e ∈ q.active_events, e.effects_applied = true) :
    q.update_events dmg now = some
      {q with active_events := q.active_events.filter (fun e => !(e.is_expired now)),
              base_temperature := q.base_temperature
                + continuous_increment now EffectMap.temperature_modifier
                    (q.active_events.filter (fun e => !(e.is_expired now))),
              base_pressure := q.base_pressure
                + continuous_increment now EffectMap.pressure_modifier
                    (q.active_events.filter (fun e => !(e.is_expired now))),
              base_oxygen := q.base_oxygen
                + continuous_increment now EffectMap.oxygen_modifier
                    (q.active_events.filter (fun e => !(e.is_expired now)))} := by
  unfold Planet.update_events
  rw [update_events_go_all_applied dmg now _ _ (fun e he => h e (List.mem_of_mem_filter he))]
  rfl

/-- Claim C2 (amended): Planet.update(dt) first prunes the expired active
events and then applies the effects of each remaining one; the increment added
to each base value is the configured modifier times the fixed fraction 0.001,
once per update call and independent of dt. (Stated for planets whose events
already ran their one-shot phase, the steady state between ticks.) -/
theorem c2_update_prunes_then_applies_unscaled (p : Planet) (dt now : ℚ)
    (dmg : String → Bool) (h : ∀ e ∈ p.active_events, e.effects_applied = true) :
    (Planet.update p dt now dmg).map Planet.active_events
      = some (p.active_events.filter (fun e => !(e.is_expired now))) ∧
    (Planet.update p dt now dmg).map Planet.base_temperature
      = some (p.base_temperature + continuous_increment now EffectMap.temperature_modifier
          (p.active_events.filter (fun e => !(e.is_expired now)))) ∧
    (Planet.update p dt now dmg).map Planet.base_pressure
      = some (p.base_pressure + continuous_increment now EffectMap.pressure_modifier
          (p.active_events.filter (fun e => !(e.is_expired now)))) ∧
    (Planet.update p dt now dmg).map Planet.base_oxygen
      = some (p.base_oxygen + continuous_increment now EffectMap.oxygen_modifier
          (p.active_events.filter (fun e => !(e.is_expired now)))) := by
  have hq : ∀ e ∈ (Planet.refresh_atmosphere p).active_events, e.effects_applied = true := h
  have hu : Planet.update p dt now dmg = (Planet.refresh_atmosphere p).update_events dmg now := rfl
  rw [hu, update_events_all_applied dmg now _ hq]
  exact ⟨rfl, rfl, rfl, rfl⟩

/-- Witness for C2 (amended) on a concrete planet with one live event. -/
theorem c2_update_prunes_then_applies_unscaled_witness :
    (Planet.update pC2 3 5 dmgNone).map Planet.active_events
      = some (pC2.active_events.filter (fun e => !(e.is_expired 5))) ∧
    (Planet.update pC2 3 5 dmgNone).map Planet.base_temperature
      = some (pC2.base_temperature + continuous_increment 5 EffectMap.temperature_modifier
          (pC2.active_events.filter (fun e => !(e.is_expired 5)))) ∧
    (Planet.update pC2 3 5 dmgNone).map Planet.base_pressure
      = some (pC2.base_pressure + continuous_increment 5 EffectMap.pressure_modifier
          (pC2.active_events.filter (fun e => !(e.is_expired 5)))) ∧
    (Planet.update pC2 3 5 dmgNone).map Planet.base_oxygen
      = some (pC2.base_oxygen + continuous_increment 5 EffectMap.oxygen_modifier
          (pC2.active_events.filter (fun e => !(e.is_expired 5)))) :=
  c2_update_prunes_then_applies_unscaled pC2 3 5 dmgNone (by
    intro e he
    have hone : e = aeContinuous := by simpa [pC2] using he
    rw [hone]
    rfl)

theorem habScore_nonneg (target tol x : ℚ) : 0 ≤ habScore target tol x :=
  le_max_left _ _

theorem habScore_le_one (target tol x : ℚ) (h : 0 < tol) : habScore target tol x ≤ 1 := by
  unfold habScore
  have hd : 0 ≤ |x - target| / tol := div_nonneg (abs_nonneg _) h.le
  rw [max_le_iff]
  constructor <;> linarith

theorem habScore_eq_one_iff (target tol x : ℚ) (h : 0 < tol) :
    habScore target tol x = 1 ↔ x = target := by
  constructor
  · intro hs
    unfold habScore at hs
    have hd : |x - target| / tol = 0 := by
      rcases le_or_lt (1 - |x - target| / tol) 0 with hle | hlt
      · rw [max_eq_left hle] at hs
        norm_num at hs
      · rw [max_eq_right hlt.le] at hs
        linarith
    have habs : |x - target| = 0 := by
      rcases div_eq_zero_iff.mp hd with h0 | h0
      · exact h0
      · exact absurd h0 (ne_of_gt h)
    rwa [abs_eq_zero, sub_eq_zero] at habs
  · rintro rfl
    unfold habScore
    simp

theorem habScore_anti (target tol x y : ℚ) (h : 0 < tol)
    (hxy : |x - target| ≤ |y - target|) :
    habScore target tol y ≤ habScore target tol x := by
  unfold habScore
  apply max_le_max le_rfl
  have hdiv : |x - target| / tol ≤ |y - target| / tol := by gcongr
  linarith

theorem habScore_eq_zero (target tol x : ℚ) (h : 0 < tol) (hd : tol ≤ |x - target|) :
    habScore target tol x = 0 := by
  unfold habScore
  apply max_eq_left
  have h1 : 1 ≤ |x - target| / tol := (one_le_div h).mpr hd
  linarith

theorem tol_temp_pos : 0 < TOLERANCE_TEMPERATURE := by norm_num [TOLERANCE_TEMPERATURE]

theorem tol_press_pos : 0 < TOLERANCE_PRESSURE := by norm_num [TOLERANCE_PRESSURE]

theorem tol_oxy_pos : 0 < TOLERANCE_OXYGEN := by norm_num [TOLERANCE_OXYGEN]

theorem habScore_temp (x : ℚ) :
    habScore TARGET_TEMPERATURE TOLERANCE_TEMPERATURE x = max 0 (1 - |x - 15| / 20) := by
  unfold habScore TARGET_TEMPERATURE TOLERANCE_TEMPERATURE
  norm_num

theorem habScore_press (x : ℚ) :
    habScore TARGET_PRESSURE TOLERANCE_PRESSURE x = max 0 (1 - |x - 1| / (3 / 10)) := by
  unfold habScore TARGET_PRESSURE TOLERANCE_PRESSURE
  norm_num

theorem habScore_oxy (x : ℚ) :
    habScore TARGET_OXYGEN TOLERANCE_OXYGEN x = max 0 (1 - |x - 21| / 5) := by
  unfold habScore TARGET_OXYGEN TOLERANCE_OXYGEN
  norm_num

/-- The outer clamp of calculate_habitability is a no-op: the weighted score is
already within [0, 100]. -/
theorem calcHab_eq (t pr ox : ℚ) :
    calcHab t pr ox = (habScore TARGET_TEMPERATURE TOLERANCE_TEMPERATURE t * 0.4
      + habScore TARGET_PRESSURE TOLERANCE_PRESSURE pr * 0.3
      + habScore TARGET_OXYGEN TOLERANCE_OXYGEN ox * 0.3) * 100 := by
  unfold calcHab
  have n1 := habScore_nonneg TARGET_TEMPERATURE TOLERANCE_TEMPERATURE t
  have n2 := habScore_nonneg TARGET_PRESSURE TOLERANCE_PRESSURE pr
  have n3 := habScore_nonneg TARGET_OXYGEN TOLERANCE_OXYGEN ox
  have u1 := habScore_le_one TARGET_TEMPERATURE TOLERANCE_TEMPERATURE t tol_temp_pos
  have u2 := habScore_le_one TARGET_PRESSURE TOLERANCE_PRESSURE pr tol_press_pos
  have u3 := habScore_le_one TARGET_OXYGEN TOLERANCE_OXYGEN ox tol_oxy_pos
  rw [max_eq_right (by nlinarith), min_eq_right (by nlinarith)]

/-- Claim C5: calculate_habitability equals the specification formula, is 100
iff temperature = 15, pressure = 1 and oxygen = 21 exactly, never increases
when any parameter's absolute deviation from its target grows, and is 0 when
all three deviations reach or exceed their tolerances. -/
theorem c5_habitability (p q : Planet) :
    Planet.calculate_habitability p = calcHabSpec p.temperature p.pressure p.oxygen ∧
    (Planet.calculate_habitability p = 100 ↔
      (p.temperature = TARGET_TEMPERATURE ∧ p.pressure = TARGET_PRESSURE
        ∧ p.oxygen = TARGET_OXYGEN)) ∧
    ((|p.temperature - TARGET_TEMPERATURE| ≤ |q.temperature - TARGET_TEMPERATURE| ∧
      |p.pressure - TARGET_PRESSURE| ≤ |q.pressure - TARGET_PRESSURE| ∧
      |p.oxygen - TARGET_OXYGEN| ≤ |q.oxygen - TARGET_OXYGEN|) →
      Planet.calculate_habitability q ≤ Planet.calculate_habitability p) ∧
    ((TOLERANCE_TEMPERATURE ≤ |p.temperature - TARGET_TEMPERATURE| ∧
      TOLERANCE_PRESSURE ≤ |p.pressure - TARGET_PRESSURE| ∧
      TOLERANCE_OXYGEN ≤ |p.oxygen - TARGET_OXYGEN|) →
      Planet.calculate_habitability p = 0) := by
  have u1 := habScore_le_one TARGET_TEMPERATURE TOLERANCE_TEMPERATURE p.temperature tol_temp_pos
  have u2 := habScore_le_one TARGET_PRESSURE TOLERANCE_PRESSURE p.pressure tol_press_pos
  have u3 := habScore_le_one TARGET_OXYGEN TOLERANCE_OXYGEN p.oxygen tol_oxy_pos
  refine ⟨?_, ?_, ?_, ?_⟩
  · unfold Planet.calculate_habitability calcHab calcHabSpec
    rw [habScore_temp, habScore_press, habScore_oxy]
    congr 1
    congr 1
    ring
  · unfold Planet.calculate_habitability
    rw [calcHab_eq]
    constructor
    · intro h100
      have e1 : habScore TARGET_TEMPERATURE TOLERANCE_TEMPERATURE p.temperature = 1 := by
        linarith
      have e2 : habScore TARGET_PRESSURE TOLERANCE_PRESSURE p.pressure = 1 := by
        linarith
      have e3 : habScore TARGET_OXYGEN TOLERANCE_OXYGEN p.oxygen = 1 := by
        linarith
      exact ⟨(habScore_eq_one_iff _ _ _ tol_temp_pos).mp e1,
             (habScore_eq_one_iff _ _ _ tol_press_pos).mp e2,
             (habScore_eq_one_iff _ _ _ tol_oxy_pos).mp e3⟩
    · rintro ⟨h1, h2, h3⟩
      rw [(habScore_eq_one_iff _ _ _ tol_temp_pos).mpr h1,
          (habScore_eq_one_iff _ _ _ tol_press_pos).mpr h2,
          (habScore_eq_one_iff _ _ _ tol_oxy_pos).mpr h3]
      norm_num
  · rintro ⟨h1, h2, h3⟩
    unfold Planet.calculate_habitability
    rw [calcHab_eq, calcHab_eq]
    have a1 := habScore_anti _ _ _ _ tol_temp_pos h1
    have a2 := habScore_anti _ _ _ _ tol_press_pos h2
    have a3 := habScore_anti _ _ _ _ tol_oxy_pos h3
    linarith
  · rintro ⟨h1, h2, h3⟩
    unfold Planet.calculate_habitability
    rw [calcHab_eq,
        habScore_eq_zero _ _ _ tol_temp_pos h1,
        habScore_eq_zero _ _ _ tol_press_pos h2,
        habScore_eq_zero _ _ _ tol_oxy_pos h3]
    norm_num

/-- Witness for C5: an Earth-like planet scores 100, a hotter one scores no
more, and a far-off-target one scores 0. -/
theorem c5_habitability_witness :
    Planet.calculate_habitability pEarthlike = 100 ∧
    Planet.calculate_habitability pHot ≤ Planet.calculate_habitability pEarthlike ∧
    Planet.calculate_habitability pDead = 0 := by
  refine ⟨?_, ?_, ?_⟩
  · exact (c5_habitability pEarthlike pEarthlike).2.1.mpr
      ⟨of_decide_eq_true (by with_unfolding_all rfl),
       of_decide_eq_true (by with_unfolding_all rfl),
       of_decide_eq_true (by with_unfolding_all rfl)⟩
  · exact (c5_habitability pEarthlike pHot).2.2.1
      ⟨of_decide_eq_true (by with_unfolding_all rfl),
       of_decide_eq_true (by with_unfolding_all rfl),
       of_decide_eq_true (by with_unfolding_all rfl)⟩
  · exact (c5_habitability pDead pDead).2.2.2
      ⟨of_decide_eq_true (by with_unfolding_all rfl),
       of_decide_eq_true (by with_unfolding_all rfl),
       of_decide_eq_true (by with_unfolding_all rfl)⟩

theorem alookup_cons {α : Type} (e : String × α) (rest : List (String × α)) (k : String) :
    alookup (e :: rest) k = if e.1 = k then some e.2 else alookup rest k := rfl

theorem alookup_cons_mk {α : Type} (a : String) (b : α) (rest : List (String × α)) (k : String) :
    alookup ((a, b) :: rest) k = if a = k then some b else alookup rest k := rfl

theorem updF_cons {α : Type} (e : String × α) (rest : List (String × α)) (key : String)
    (f : α → α) :
    updF (e :: rest) key f = (if e.1 = key then (e.1, f e.2) else e) :: updF rest key f := rfl

theorem alookup_updF_self {α : Type} (l : List (String × α)) (key : String) (f : α → α) :
    alookup (updF l key f) key = (alookup l key).map f := by
  induction l with
  | nil => rfl
  | cons e rest ih =>
    rw [updF_cons]
    by_cases hk : e.1 = key
    · rw [if_pos hk, alookup_cons_mk, if_pos hk, alookup_cons, if_pos hk]
      rfl
    · rw [if_neg hk, alookup_cons, if_neg hk, alookup_cons, if_neg hk]
      exact ih

theorem alookup_updF_ne {α : Type} (l : List (String × α)) (key k : String) (f : α → α)
    (h : k ≠ key) : alookup (updF l key f) k = alookup l k := by
  induction l with
  | nil => rfl
  | cons e rest ih =>
    rw [updF_cons]
    by_cases hk : e.1 = key
    · have hek : ¬ e.1 = k := by
        intro hc
        rw [hc] at hk
        exact h hk
      rw [if_pos hk, alookup_cons_mk, if_neg hek, alookup_cons, if_neg hek]
      exact ih
    · rw [if_neg hk, alookup_cons, alookup_cons]
      by_cases hek : e.1 = k
      · rw [if_pos hek, if_pos hek]
      · rw [if_neg hek, if_neg hek]
        exact ih

theorem map_fst_updF {α : Type} (l : List (String × α)) (key : String) (f : α → α) :
    (updF l key f).map Prod.fst = l.map Prod.fst := by
  induction l with
  | nil => rfl
  | cons e rest ih =>
    rw [updF_cons, List.map_cons, List.map_cons]
    by_cases hk : e.1 = key
    · rw [if_pos hk, ih]
    · rw [if_neg hk, ih]

theorem alookup_eq_none_iff {α : Type} (l : List (String × α)) (k : String) :
    alookup l k = none ↔ k ∉ l.map Prod.fst := by
  induction l with
  | nil => simp [alookup]
  | cons e rest ih =>
    rw [alookup_cons, List.map_cons]
    by_cases hk : e.1 = k
    · rw [if_pos hk]
      constructor
      · intro hc
        exact absurd hc (by simp)
      · intro hc
        exact absurd (by rw [hk]; exact List.mem_cons_self _ _) hc
    · rw [if_neg hk, ih]
      constructor
      · intro hm hc
        rcases List.mem_cons.mp hc with h1 | h2
        · exact hk h1.symm
        · exact hm h2
      · intro hm hc
        exact hm (List.mem_cons_of_mem _ hc)

theorem alookup_isSome_iff {α : Type} (l : List (String × α)) (k : String) :
    (alookup l k).isSome = true ↔ k ∈ l.map Prod.fst := by
  constructor
  · intro hs
    by_contra hm
    rw [(alookup_eq_none_iff l k).mpr hm] at hs
    simp at hs
  · intro hm
    cases ho : alookup l k with
    | none => exact absurd hm ((alookup_eq_none_iff l k).mp ho)
    | some v => rfl

theorem alookup_map_snd {α β : Type} (l : List (String × α)) (f : α → β) (k : String) :
    alookup (l.map (fun e => (e.1, f e.2))) k = (alookup l k).map f := by
  induction l with
  | nil => rfl
  | cons e rest ih =>
    by_cases hk : e.1 = k <;> simp [alookup, hk, ih]

theorem map_pair_fst {α β : Type} (l : List (String × α)) (f : α → β) :
    (l.map (fun e => (e.1, f e.2))).map Prod.fst = l.map Prod.fst := by
  rw [List.map_map]
  rfl

theorem restore_researched_progress (ids : List String) (l : List (String × Technology))
    (k : String) :
    (alookup (restore_researched ids l) k).map Technology.research_progress
      = (alookup l k).map Technology.research_progress := by
  induction ids generalizing l with
  | nil => rfl
  | cons i rest ih =>
    unfold restore_researched
    rw [ih]
    split
    · by_cases hk : k = i
      · subst hk
        rw [alookup_updF_self]
        cases alookup l k <;> rfl
      · rw [alookup_updF_ne _ _ _ _ hk]
    · rfl

theorem restore_researched_fst (ids : List String) (l : List (String × Technology)) :
    (restore_researched ids l).map Prod.fst = l.map Prod.fst := by
  induction ids generalizing l with
  | nil => rfl
  | cons i rest ih =>
    unfold restore_researched
    rw [ih]
    split
    · exact map_fst_updF _ _ _
    · rfl

theorem restore_progress_not_mem (pairs : List (String × ℚ)) (l : List (String × Technology))
    (k : String) (h : k ∉ pairs.map Prod.fst) :
    alookup (restore_progress pairs l) k = alookup l k := by
  induction pairs generalizing l with
  | nil => rfl
  | cons e rest ih =>
    obtain ⟨i, v⟩ := e
    rw [List.map_cons, List.mem_cons] at h
    push_neg at h
    unfold restore_progress
    rw [ih _ h.2]
    split
    · exact alookup_updF_ne _ _ _ _ h.1
    · rfl

theorem restore_progress_lookup :
    ∀ (pairs : List (String × ℚ)) (k : String) (pr : ℚ),
      (pairs.map Prod.fst).Nodup → alookup pairs k = some pr →
      ∀ l : List (String × Technology), k ∈ l.map Prod.fst →
      (alookup (restore_progress pairs l) k).map Technology.research_progress = some pr := by
  intro pairs
  induction pairs with
  | nil =>
    intro k pr _ hfind
    simp [alookup] at hfind
  | cons e rest ih =>
    intro k pr hnd hfind l hl
    obtain ⟨i, v⟩ := e
    rw [List.map_cons] at hnd
    by_cases hk : i = k
    · subst hk
      have hpr : v = pr := by simpa [alookup] using hfind
      have hnr : i ∉ rest.map Prod.fst := (List.nodup_cons.mp hnd).1
      unfold restore_progress
      rw [restore_progress_not_mem _ _ _ hnr]
      have hsome : (alookup l i).isSome = true := (alookup_isSome_iff _ _).mpr hl
      rw [if_pos hsome, alookup_updF_self]
      cases ho : alookup l i with
      | none => rw [ho] at hsome; simp at hsome
      | some th => simp [hpr]
    · have hfind2 : alookup rest k = some pr := by simpa [alookup, hk] using hfind
      unfold restore_progress
      apply ih k pr (List.nodup_cons.mp hnd).2 hfind2
      split
      · rw [map_fst_updF]; exact hl
      · exact hl

theorem update_availability_cons (r : List String) (e : String × Technology)
    (rest : List (String × Technology)) :
    update_availability r (e :: rest)
      = (if e.2.is_researched then e
         else (e.1, {e.2 with is_available := e.2.prerequisites.all (fun q => r.contains q)}))
        :: update_availability r rest := rfl

theorem update_availability_fst (r : List String) (l : List (String × Technology)) :
    (update_availability r l).map Prod.fst = l.map Prod.fst := by
  induction l with
  | nil => rfl
  | cons e rest ih =>
    rw [update_availability_cons, List.map_cons, List.map_cons]
    by_cases hr : e.2.is_researched = true
    · rw [if_pos hr, ih]
    · rw [if_neg hr, ih]

theorem update_availability_progress (r : List String) (l : List (String × Technology))
    (k : String) :
    (alookup (update_availability r l) k).map Technology.research_progress
      = (alookup l k).map Technology.research_progress := by
  induction l with
  | nil => rfl
  | cons e rest ih =>
    rw [update_availability_cons]
    by_cases hr : e.2.is_researched = true
    · rw [if_pos hr, alookup_cons, alookup_cons]
      by_cases hk : e.1 = k
      · rw [if_pos hk, if_pos hk]
      · rw [if_neg hk, if_neg hk]
        exact ih
    · rw [if_neg hr, alookup_cons_mk, alookup_cons]
      by_cases hk : e.1 = k
      · rw [if_pos hk, if_pos hk]
        rfl
      · rw [if_neg hk, if_neg hk]
        exact ih

theorem mkTechnologyTree_fst (tmpl : List (String × TechData)) :
    (mkTechnologyTree tmpl).technologies.map Prod.fst = tmpl.map Prod.fst := by
  unfold mkTechnologyTree
  rw [update_availability_fst, List.map_map]
  rfl

/-- Claim C6: converting Planet, ResourceManager and TechnologyTree to their
snapshots and back reproduces an observably identical state: the same
buildings mapping, the same credits/energy/science stocks, the same researched
set, current research, and per-technology research progress (for a tree whose
technologies come from the same template mapping with distinct ids, as the
constructor guarantees). -/
theorem c6_snapshot_round_trip (p : Planet) (ptmpl : PlanetData) (rm : ResourceManager)
    (t : TechnologyTree) (tmpl : List (String × TechData))
    (hk : t.technologies.map Prod.fst = tmpl.map Prod.fst)
    (hnd : (tmpl.map Prod.fst).Nodup) :
    (Planet.from_dict p.to_dict ptmpl).buildings = p.buildings ∧
    (ResourceManager.from_dict rm.to_dict).credits = rm.credits ∧
    (ResourceManager.from_dict rm.to_dict).energy = rm.energy ∧
    (ResourceManager.from_dict rm.to_dict).science = rm.science ∧
    (TechnologyTree.from_dict tmpl t.to_dict).researched_technologies
      = t.researched_technologies ∧
    (TechnologyTree.from_dict tmpl t.to_dict).current_research = t.current_research ∧
    (TechnologyTree.from_dict tmpl t.to_dict).research_progress = t.research_progress ∧
    ∀ tech_id : String,
      (alookup (TechnologyTree.from_dict tmpl t.to_dict).technologies tech_id).map
          Technology.research_progress
        = (alookup t.technologies tech_id).map Technology.research_progress := by
  refine ⟨rfl, rfl, rfl, rfl, rfl, rfl, rfl, ?_⟩
  intro tech_id
  have hfrom : (TechnologyTree.from_dict tmpl t.to_dict).technologies
      = update_availability t.researched_technologies
          (restore_progress (t.technologies.map (fun e => (e.1, e.2.research_progress)))
            (restore_researched t.researched_technologies
              (mkTechnologyTree tmpl).technologies)) := rfl
  rw [hfrom, update_availability_progress]
  have hKfst : (restore_researched t.researched_technologies
        (mkTechnologyTree tmpl).technologies).map Prod.fst = tmpl.map Prod.fst := by
    rw [restore_researched_fst, mkTechnologyTree_fst]
  have hpairs_fst : (t.technologies.map (fun e => (e.1, e.2.research_progress))).map Prod.fst
      = tmpl.map Prod.fst := by
    rw [map_pair_fst, hk]
  cases ho : alookup t.technologies tech_id with
  | none =>
    have hnm : tech_id ∉ t.technologies.map Prod.fst := (alookup_eq_none_iff _ _).mp ho
    have hnp : tech_id
        ∉ (t.technologies.map (fun e => (e.1, e.2.research_progress))).map Prod.fst := by
      rw [hpairs_fst, ← hk]; exact hnm
    rw [restore_progress_not_mem _ _ _ hnp,
        (alookup_eq_none_iff _ _).mpr (by rw [hKfst, ← hk]; exact hnm)]
  | some th =>
    have hfind : alookup (t.technologies.map (fun e => (e.1, e.2.research_progress))) tech_id
        = some th.research_progress := by
      rw [alookup_map_snd, ho]
      rfl
    have hmem : tech_id ∈ (restore_researched t.researched_technologies
        (mkTechnologyTree tmpl).technologies).map Prod.fst := by
      rw [hKfst, ← hk]
      exact (alookup_isSome_iff _ _).mp (by rw [ho]; rfl)
    rw [restore_progress_lookup _ tech_id th.research_progress
        (by rw [hpairs_fst]; exact hnd) hfind _ hmem]
    rfl

/-- Witness for C6 on a concrete one-technology tree and fresh planet and
resource manager. -/
theorem c6_snapshot_round_trip_witness :
    (Planet.from_dict pEarthlike.to_dict pdEarth).buildings = pEarthlike.buildings ∧
    (ResourceManager.from_dict mkResourceManager.to_dict).credits = mkResourceManager.credits ∧
    (ResourceManager.from_dict mkResourceManager.to_dict).energy = mkResourceManager.energy ∧
    (ResourceManager.from_dict mkResourceManager.to_dict).science = mkResourceManager.science ∧
    (TechnologyTree.from_dict tmplOne (mkTechnologyTree tmplOne).to_dict).researched_technologies
      = (mkTechnologyTree tmplOne).researched_technologies ∧
    (TechnologyTree.from_dict tmplOne (mkTechnologyTree tmplOne).to_dict).current_research
      = (mkTechnologyTree tmplOne).current_research ∧
    (TechnologyTree.from_dict tmplOne (mkTechnologyTree tmplOne).to_dict).research_progress
      = (mkTechnologyTree tmplOne).research_progress ∧
    (alookup (TechnologyTree.from_dict tmplOne
          (mkTechnologyTree tmplOne).to_dict).technologies "alpha").map
        Technology.research_progress
      = (alookup (mkTechnologyTree tmplOne).technologies "alpha").map
          Technology.research_progress := by
  have h := c6_snapshot_round_trip pEarthlike pdEarth mkResourceManager
    (mkTechnologyTree tmplOne) tmplOne rfl (by decide)
  exact ⟨h.1, h.2.1, h.2.2.1, h.2.2.2.1, h.2.2.2.2.1, h.2.2.2.2.2.1, h.2.2.2.2.2.2.1,
         h.2.2.2.2.2.2.2 "alpha"⟩

end Terra
